import Mathlib

/-!
Shallow embedding of the SMARTscraper pipeline (Slack message scraping,
per-message classification via a completion API, aggregation and output
writing), translated from `src/models.py`, `src/message_processor.py`,
`src/agent.py`, `src/output_manager.py` and `src/slack_scraper.py`.

Modelling conventions:
* `datetime` instants are rational numbers (`ℚ`); `isoformat` is abstracted
  as the canonical textual rendering of the instant.
* Values produced by `json.loads` are modelled by the inductive type `Json`;
  the Python value `None` (for a JSON `null` or a missing key) is modelled
  by `Option`.
* Exceptions are modelled with `Except PyErr`; code that catches exceptions
  is a total function on the corresponding outcome type.
* The external network calls (Slack history, OpenAI completion) are inputs
  of the embedded functions: the raw entry list for the scraper, and a
  per-message `CompletionOutcome` oracle for the classifier.
-/

/-- Values produced by Python's `json.loads`. -/
inductive Json where
  | null : Json
  | bool (b : Bool) : Json
  | num (q : ℚ) : Json
  | str (s : String) : Json
  | arr (items : List Json) : Json
  | obj (fields : List (String × Json)) : Json

/-- Python exception classes that the embedded code distinguishes. -/
inductive PyErr where
  | jsonDecodeError : PyErr
  | valueError : PyErr
  | typeError : PyErr
  | attributeError : PyErr
  | zeroDivisionError : PyErr
deriving DecidableEq

/-- The `SlackMessage` dataclass of `src/models.py`.  The extracted
`progress`/`next_steps` fields hold whatever Python value the parse produced
(normally a string), hence `Option Json` with `none` for Python `None`. -/
structure SlackMessage where
  user_id : String
  username : String
  timestamp : ℚ
  text : String
  channel_id : String
  thread_ts : Option String := none
  progress : Option Json := none
  next_steps : Option Json := none
  processed_at : Option ℚ := none
  confidence_score : Option ℚ := none

/-- The `ProcessingResult` dataclass of `src/models.py`. -/
structure ProcessingResult where
  total_messages : ℕ
  processed_messages : ℕ
  failed_messages : ℕ
  results : List SlackMessage

/-- Python truthiness of an optional string (`None` and `""` are falsy). -/
def truthy : Option String → Bool
  | none => false
  | some s => s ≠ ""

/-- Numeric value of a list of decimal digit characters. -/
def digitsVal (cs : List Char) : ℕ :=
  cs.foldl (fun acc c => 10 * acc + (c.toNat - 48)) 0

/-- Python `float()` applied to a string, modelled for plain decimal
literals with an optional sign and an optional fractional part (Python also
accepts exponents, `inf`/`nan` and surrounding whitespace; those inputs are
out of scope here).  `none` models a raised `ValueError`. -/
def strToRat (s : String) : Option ℚ :=
  let cs := s.toList
  let signed : ℚ × List Char :=
    match cs with
    | '-' :: r => (-1, r)
    | '+' :: r => (1, r)
    | r => (1, r)
  let ip := signed.2.takeWhile Char.isDigit
  let rest := signed.2.dropWhile Char.isDigit
  match rest with
  | [] => if ip.isEmpty then none else some (signed.1 * (digitsVal ip : ℚ))
  | '.' :: fp =>
    if fp.all Char.isDigit ∧ ¬(ip.isEmpty ∧ fp.isEmpty) then
      some (signed.1 * ((digitsVal ip : ℚ) + (digitsVal fp : ℚ) / (10 : ℚ) ^ fp.length))
    else none
  | _ => none

/-- Python `float()` applied to the Python value of a JSON field
(`float(None)` and `float` of containers raise `TypeError`; a non-numeric
string raises `ValueError`; booleans coerce to 0/1). -/
def pyFloatJson : Json → Except PyErr ℚ
  | .num q => .ok q
  | .bool b => .ok (if b then 1 else 0)
  | .str s =>
    match strToRat s with
    | some q => .ok q
    | none => .error .valueError
  | .null => .error .typeError
  | .arr _ => .error .typeError
  | .obj _ => .error .typeError

/-- `float(parsed.get('confidence', 0.0))` from
`MessageProcessor._parse_extraction_result`: the default `0.0` applies only
when the key is absent; a present JSON `null` reaches `float(None)`. -/
def confidenceValue (fields : List (String × Json)) : Except PyErr ℚ :=
  match fields.lookup "confidence" with
  | none => .ok 0
  | some v => pyFloatJson v

/-- The Python value of a JSON field after `json.loads`: a JSON `null`
becomes Python `None`. -/
def pyOf : Option Json → Option Json
  | some .null => none
  | v => v

/-- The `if value == "null": value = None` normalisation applied to the two
text fields in `MessageProcessor._parse_extraction_result`. -/
def nullStrFix (v : Option Json) : Option Json :=
  match v with
  | some (.str s) => if s = "null" then none else some (.str s)
  | v => v

/-- `MessageProcessor._parse_extraction_result` on the outcome of
`json.loads` applied to the reply text (`none` models a raised
`json.JSONDecodeError`).  The `except` clause catches
`json.JSONDecodeError`, `ValueError` and `KeyError` and returns the failure
triple; an `AttributeError` (reply is valid JSON but not an object) or a
`TypeError` (`float(None)`) propagates to the caller. -/
def parse_extraction_result (parsed : Option Json) :
    Except PyErr (Option Json × Option Json × ℚ) :=
  match parsed with
  | none => .ok (none, none, 0)
  | some (.obj fields) =>
    match confidenceValue fields with
    | .ok c =>
      .ok (nullStrFix (pyOf (fields.lookup "progress")),
           nullStrFix (pyOf (fields.lookup "next_steps")), c)
    | .error .valueError => .ok (none, none, 0)
    | .error e => .error e
  | some _ => .error .attributeError

/-- Outcome of the completion request issued by
`MessageProcessor._extract_progress_and_next_steps`: the request itself
raised, or the response carried no textual content, or it carried content
whose `json.loads` result is `parsed` (`none` = malformed JSON). -/
inductive CompletionOutcome where
  | apiError : CompletionOutcome
  | noContent : CompletionOutcome
  | content (parsed : Option Json) : CompletionOutcome

/-- `MessageProcessor._extract_progress_and_next_steps`: the surrounding
`try`/`except Exception` converts any raised error into the failure triple
`(None, None, 0.0)`; an absent content is the same failure without an
exception. -/
def extract_progress_and_next_steps (outcome : CompletionOutcome) :
    Option Json × Option Json × ℚ :=
  match outcome with
  | .apiError => (none, none, 0)
  | .noContent => (none, none, 0)
  | .content parsed =>
    match parse_extraction_result parsed with
    | .ok v => v
    | .error _ => (none, none, 0)

/-- `MessageProcessor.process_message`: annotates the record with the
extraction result and stamps `processed_at`; `now` is the current instant.
Its own `try`/`except` is an additional guard around code that is total in
this model. -/
def process_message (outcome : CompletionOutcome) (now : ℚ)
    (message : SlackMessage) : SlackMessage :=
  let r := extract_progress_and_next_steps outcome
  { message with
    progress := r.1
    next_steps := r.2.1
    confidence_score := some r.2.2
    processed_at := some now }

/-- `MessageProcessor.process_messages`: sequential per-message processing;
`oracle` gives the completion outcome obtained for each message. -/
def process_messages (oracle : SlackMessage → CompletionOutcome) (now : ℚ)
    (messages : List SlackMessage) : List SlackMessage :=
  messages.map (fun m => process_message (oracle m) now m)

/-- The reply outcomes on which `_extract_progress_and_next_steps` goes
through its error handling rather than a successful parse: malformed JSON,
JSON that is not an object, or a confidence value on which `float()`
raises. -/
def parse_failed (parsed : Option Json) : Bool :=
  match parsed with
  | none => true
  | some (.obj fields) =>
    match confidenceValue fields with
    | .ok _ => false
    | .error _ => true
  | some _ => true

/-- `SlackMessageAgent.scrape_and_process` from `src/agent.py`, after the
connection test succeeded and the fetch produced `messages` (fetch order
preserved): the empty fetch short-circuits to the all-zero result, otherwise
every message is classified and the success/failure tallies are computed. -/
def scrape_and_process (oracle : SlackMessage → CompletionOutcome) (now : ℚ)
    (messages : List SlackMessage) : ProcessingResult :=
  if messages.isEmpty then
    { total_messages := 0, processed_messages := 0, failed_messages := 0,
      results := [] }
  else
    let processed := process_messages oracle now messages
    let successful :=
      processed.filter (fun m => m.progress.isSome || m.next_steps.isSome)
    { total_messages := messages.length
      processed_messages := successful.length
      failed_messages := processed.length - successful.length
      results := processed }

/-- Whether `scrape_and_process` reaches its `process_messages` call: the
call sits after the `if not messages` early return, so the classifier is
invoked exactly when the fetched list is nonempty. -/
def classifierInvoked (messages : List SlackMessage) : Bool :=
  !messages.isEmpty

/-- ISO-8601 rendering of an instant (`datetime.isoformat`), abstracted as
the canonical textual rendering of the rational instant. -/
def isoformat (t : ℚ) : String := toString t

/-- A Python `Optional[str]` serialized to JSON. -/
def jsonOfOptStr : Option String → Json
  | none => .null
  | some s => .str s

/-- A Python optional JSON value serialized back to JSON. -/
def jsonOfOptJson : Option Json → Json
  | none => .null
  | some v => v

/-- `SlackMessage.to_dict` from `src/models.py`: the serialization
dictionary, keys in source order. -/
def SlackMessage.to_dict (m : SlackMessage) : List (String × Json) :=
  [("user_id", .str m.user_id),
   ("username", .str m.username),
   ("timestamp", .str (isoformat m.timestamp)),
   ("text", .str m.text),
   ("channel_id", .str m.channel_id),
   ("thread_ts", jsonOfOptStr m.thread_ts),
   ("progress", jsonOfOptJson m.progress),
   ("next_steps", jsonOfOptJson m.next_steps),
   ("processed_at",
     match m.processed_at with
     | none => Json.null
     | some t => Json.str (isoformat t)),
   ("confidence_score",
     match m.confidence_score with
     | none => Json.null
     | some c => Json.num c)]

/-- `ProcessingResult.to_dict` from `src/models.py`. -/
def ProcessingResult.to_dict (r : ProcessingResult) : Json :=
  .obj [("total_messages", .num r.total_messages),
        ("processed_messages", .num r.processed_messages),
        ("failed_messages", .num r.failed_messages),
        ("results", .arr (r.results.map (fun m => Json.obj m.to_dict)))]

/-- The fixed CSV column order of `OutputManager._save_as_csv`. -/
def fieldnames : List String :=
  ["user_id", "username", "timestamp", "text", "channel_id",
   "thread_ts", "progress", "next_steps", "processed_at", "confidence_score"]

/-- Text written by Python's `csv` writer for one cell value: `None` is
written as the empty string, strings verbatim; the textual forms of numbers
and containers are abstracted. -/
def csvCell : Json → String
  | .null => ""
  | .str s => s
  | .num q => toString q
  | .bool b => if b then "True" else "False"
  | .arr _ => "<arr>"
  | .obj _ => "<obj>"

/-- One CSV data row: `csv.DictWriter.writerow(message.to_dict())` renders
the dictionary entry for each field name, in `fieldnames` order. -/
def csvRow (m : SlackMessage) : List String :=
  fieldnames.map (fun f => csvCell (jsonOfOptJson (m.to_dict.lookup f)))

/-- `OutputManager._save_as_csv`: the rows of the written CSV file, header
first, then one row per record in sequence order. -/
def save_as_csv (result : ProcessingResult) : List (List String) :=
  fieldnames :: result.results.map csvRow

/-- Data written into the output file by `OutputManager.save_results`. -/
inductive FileData where
  | jsonFile (doc : Json) : FileData
  | csvFile (rows : List (List String)) : FileData

/-- Python's `str.lower()`, as a character-wise map. -/
def pyLower (s : String) : String := String.mk (s.data.map Char.toLower)

/-- `OutputManager.save_results` with the default `output` directory:
dispatches on the lowercased format string, producing the output path and
file contents, or raises `ValueError` (modelled as `.error`) for any other
format before any file is created; `ts` is the `%Y%m%d_%H%M%S` timestamp
string. -/
def save_results (result : ProcessingResult) (format : String) (ts : String) :
    Except String (String × FileData) :=
  if pyLower format = "json" then
    .ok ("output/slack_messages_" ++ ts ++ ".json",
         .jsonFile result.to_dict)
  else if pyLower format = "csv" then
    .ok ("output/slack_messages_" ++ ts ++ ".csv",
         .csvFile (save_as_csv result))
  else
    .error ("Unsupported format: " ++ format)

/-- The success-rate expression printed by `OutputManager.print_summary`
(`result.processed_messages/result.total_messages*100`): Python raises
`ZeroDivisionError` when `total_messages` is zero. -/
def print_summary_success_rate (result : ProcessingResult) : Except PyErr ℚ :=
  if result.total_messages = 0 then .error .zeroDivisionError
  else .ok ((result.processed_messages : ℚ) / (result.total_messages : ℚ) * 100)

/-- One raw entry of the Slack `conversations_history` response, with the
fields `SlackScraper.get_channel_messages` reads; `ts` is the already
parsed numeric timestamp (`float(msg['ts'])`). -/
structure RawEntry where
  bot_id : Option String := none
  subtype : Option String := none
  user : Option String := none
  ts : ℚ := 0
  text : Option String := none
  thread_ts : Option String := none

/-- Display-name resolution of `SlackScraper.get_channel_messages`:
`lookup u` is the `name` field of the user object returned by `users_info`
(`none` when the call raised `SlackApiError` or returned no user object or
no name); a missing or empty name falls back to the synthetic
`user_<id>`.  The per-run cache memoizes the pure `lookup` and does not
change results, so it is elided. -/
def username_for (lookup : String → Option String) (u : String) : String :=
  match lookup u with
  | some n => if n = "" then "user_" ++ u else n
  | none => "user_" ++ u

/-- The per-entry body of the `get_channel_messages` loop: `none` when the
entry is skipped (bot message, system subtype, or no author id), otherwise
the constructed `SlackMessage`. -/
def convert_entry (lookup : String → Option String) (channel_id : String)
    (e : RawEntry) : Option SlackMessage :=
  if truthy e.bot_id || truthy e.subtype then none
  else if truthy e.user then
    match e.user with
    | some u =>
      some { user_id := u
             username := username_for lookup u
             timestamp := e.ts
             text := e.text.getD ""
             channel_id := channel_id
             thread_ts := e.thread_ts }
    | none => none
  else none

/-- Whether a raw entry survives the skip filters of
`get_channel_messages`. -/
def keeps_entry (e : RawEntry) : Bool :=
  !(truthy e.bot_id || truthy e.subtype) && truthy e.user

/-- `SlackScraper.get_channel_messages` on a successful history fetch
returning `entries` (a failed fetch re-raises `SlackApiError` and is not
modelled here; a falsy `messages` field yields the empty entry list). -/
def get_channel_messages (lookup : String → Option String)
    (channel_id : String) (entries : List RawEntry) : List SlackMessage :=
  entries.filterMap (convert_entry lookup channel_id)

/-- `SlackScraper.get_user_messages`: fetches the channel listing and keeps
the records of one author. -/
def get_user_messages (lookup : String → Option String) (channel_id : String)
    (entries : List RawEntry) (user_id : String) : List SlackMessage :=
  (get_channel_messages lookup channel_id entries).filter
    (fun m => m.user_id == user_id)

/-- A sample fetched record used to instantiate the theorems below. -/
def sampleMsg : SlackMessage :=
  { user_id := "U1", username := "alice", timestamp := 1,
    text := "shipped the release", channel_id := "C1" }

/-- Success predicate of the aggregation step in
`SlackMessageAgent.scrape_and_process`: progress present or next steps
present. -/
def succeeded (m : SlackMessage) : Bool :=
  m.progress.isSome || m.next_steps.isSome

lemma length_process_messages (oracle : SlackMessage → CompletionOutcome)
    (now : ℚ) (messages : List SlackMessage) :
    (process_messages oracle now messages).length = messages.length :=
  List.length_map _ _

lemma filter_succeeded_count (l : List SlackMessage) :
    (l.filter succeeded).length = l.countP succeeded :=
  (List.countP_eq_length_filter _ _).symm

lemma sub_filter_succeeded_count (l : List SlackMessage) :
    l.length - (l.filter succeeded).length
      = l.countP (fun m => m.progress.isNone && m.next_steps.isNone) := by
  have hsplit := List.length_eq_countP_add_countP succeeded l
  have hcongr : l.countP (fun m => decide ¬(succeeded m = true))
      = l.countP (fun m => m.progress.isNone && m.next_steps.isNone) := by
    refine List.countP_congr ?_
    intro x _
    cases hp : x.progress <;> cases hn : x.next_steps <;>
      simp [succeeded, hp, hn]
  have hfil := filter_succeeded_count l
  rw [hcongr] at hsplit
  omega

/-- Claim C1: for every batch produced by `scrape_and_process`,
`total_messages = processed_messages + failed_messages`;
`processed_messages` counts exactly the records with progress present or
next steps present, and `failed_messages` counts exactly the records with
both absent, so a record with both absent is counted as failed and never as
succeeded. -/
theorem c1_aggregation_invariant (oracle : SlackMessage → CompletionOutcome)
    (now : ℚ) (messages : List SlackMessage) :
    (scrape_and_process oracle now messages).total_messages
        = (scrape_and_process oracle now messages).processed_messages
          + (scrape_and_process oracle now messages).failed_messages
    ∧ (scrape_and_process oracle now messages).processed_messages
        = (scrape_and_process oracle now messages).results.countP succeeded
    ∧ (scrape_and_process oracle now messages).failed_messages
        = (scrape_and_process oracle now messages).results.countP
            (fun m => m.progress.isNone && m.next_steps.isNone) := by
  cases messages with
  | nil => exact ⟨rfl, rfl, rfl⟩
  | cons a as =>
    have hlen := length_process_messages oracle now (a :: as)
    have hfil := filter_succeeded_count (process_messages oracle now (a :: as))
    have hsub :=
      sub_filter_succeeded_count (process_messages oracle now (a :: as))
    have hle : ((process_messages oracle now (a :: as)).filter
          succeeded).length ≤ (process_messages oracle now (a :: as)).length :=
      (List.filter_sublist _).length_le
    refine ⟨?_, ?_, ?_⟩
    · show (a :: as).length
        = ((process_messages oracle now (a :: as)).filter succeeded).length
          + ((process_messages oracle now (a :: as)).length
             - ((process_messages oracle now (a :: as)).filter
                  succeeded).length)
      omega
    · show ((process_messages oracle now (a :: as)).filter succeeded).length
        = (process_messages oracle now (a :: as)).countP succeeded
      exact hfil
    · show (process_messages oracle now (a :: as)).length
          - ((process_messages oracle now (a :: as)).filter succeeded).length
        = (process_messages oracle now (a :: as)).countP
            (fun m => m.progress.isNone && m.next_steps.isNone)
      exact hsub

/-- Claim C2: every failure of a single classification call (API error,
empty or absent reply content, or any parse error on the reply) is
converted to the failure outcome `progress = None`, `next_steps = None`,
`confidence = 0`, and the per-message processing is total: a bad message
never removes records from the processed batch. -/
theorem c2_failures_contained (oracle : SlackMessage → CompletionOutcome)
    (now : ℚ) (msg : SlackMessage) (outcome : CompletionOutcome)
    (msgs : List SlackMessage)
    (h : outcome = .apiError ∨ outcome = .noContent
        ∨ ∃ p, outcome = .content p ∧ parse_failed p = true) :
    (process_message outcome now msg).progress = none
    ∧ (process_message outcome now msg).next_steps = none
    ∧ (process_message outcome now msg).confidence_score = some 0
    ∧ (process_messages oracle now msgs).length = msgs.length := by
  refine ?_
  have hbatch : (process_messages oracle now msgs).length = msgs.length :=
    length_process_messages _ _ _
  rcases h with h | h | ⟨p, rfl, hp⟩
  · subst h
    exact ⟨rfl, rfl, rfl, hbatch⟩
  · subst h
    exact ⟨rfl, rfl, rfl, hbatch⟩
  · refine ⟨?_, ?_, ?_, hbatch⟩ <;>
    · cases p with
      | none => rfl
      | some j =>
        cases j with
        | obj fields =>
          simp only [process_message, extract_progress_and_next_steps,
            parse_extraction_result]
          simp only [parse_failed] at hp
          cases hc : confidenceValue fields with
          | ok c => simp [hc] at hp
          | error e => cases e <;> rfl
        | null => rfl
        | bool b => rfl
        | num q => rfl
        | str s => rfl
        | arr items => rfl

/-- Witness for C2 at a concrete failing outcome (an API error). -/
theorem c2_failures_contained_witness :
    (process_message .apiError 2 sampleMsg).progress = none
    ∧ (process_message .apiError 2 sampleMsg).next_steps = none
    ∧ (process_message .apiError 2 sampleMsg).confidence_score = some 0
    ∧ (process_messages (fun _ => .apiError) 2 [sampleMsg]).length
        = [sampleMsg].length :=
  c2_failures_contained (fun _ => .apiError) 2 sampleMsg .apiError [sampleMsg]
    (Or.inl rfl)

/-- Claim C3 (code bug): `print_summary` does not guard the success-rate
division; on the empty batch that `scrape_and_process` itself produces, the
expression `processed_messages/total_messages*100` raises
`ZeroDivisionError` instead of displaying 0% or skipping the line. -/
theorem c3_empty_batch_divides_by_zero :
    print_summary_success_rate
        (scrape_and_process (fun _ => .apiError) 0 []) =
      .error .zeroDivisionError := rfl

/-- Claim C4: a fetch returning zero messages short-circuits
`scrape_and_process` to the all-zero batch with an empty record sequence;
the result does not depend on the classifier oracle, and the
`process_messages` call site is not reached. -/
theorem c4_empty_fetch_short_circuits
    (oracle oracle2 : SlackMessage → CompletionOutcome) (now : ℚ)
    (messages : List SlackMessage) (h : messages = []) :
    (scrape_and_process oracle now messages).total_messages = 0
    ∧ (scrape_and_process oracle now messages).processed_messages = 0
    ∧ (scrape_and_process oracle now messages).failed_messages = 0
    ∧ (scrape_and_process oracle now messages).results = []
    ∧ classifierInvoked messages = false
    ∧ scrape_and_process oracle now messages
        = scrape_and_process oracle2 now messages := by
  subst h
  exact ⟨rfl, rfl, rfl, rfl, rfl, rfl⟩

/-- Witness for C4 at the concrete empty fetch. -/
theorem c4_empty_fetch_short_circuits_witness :
    (scrape_and_process (fun _ => .apiError) 3 []).total_messages = 0
    ∧ (scrape_and_process (fun _ => .apiError) 3 []).processed_messages = 0
    ∧ (scrape_and_process (fun _ => .apiError) 3 []).failed_messages = 0
    ∧ (scrape_and_process (fun _ => .apiError) 3 []).results = []
    ∧ classifierInvoked [] = false
    ∧ scrape_and_process (fun _ => .apiError) 3 []
        = scrape_and_process (fun _ => .noContent) 3 [] :=
  c4_empty_fetch_short_circuits (fun _ => .apiError) (fun _ => .noContent) 3
    [] rfl

/-- A sample batch result used to instantiate the theorems below. -/
def sampleResult : ProcessingResult :=
  { total_messages := 1, processed_messages := 0, failed_messages := 1,
    results := [process_message .apiError 2 sampleMsg] }

/-- Claim C5: `save_results` accepts exactly the formats `json` and `csv`,
matched case-insensitively; every other format string fails with the
unsupported-format error carrying no file data, and on success the returned
path is `slack_messages_<timestamp>.<ext>` inside the output directory. -/
theorem c5_save_results_formats (result : ProcessingResult)
    (format ts : String) :
    (pyLower format = "json" →
      save_results result format ts
        = .ok ("output/slack_messages_" ++ ts ++ ".json",
               .jsonFile result.to_dict))
    ∧ (pyLower format = "csv" →
      save_results result format ts
        = .ok ("output/slack_messages_" ++ ts ++ ".csv",
               .csvFile (save_as_csv result)))
    ∧ (pyLower format ≠ "json" → pyLower format ≠ "csv" →
      save_results result format ts
        = .error ("Unsupported format: " ++ format)) := by
  refine ⟨?_, ?_, ?_⟩
  · intro h
    simp [save_results, h]
  · intro h
    by_cases hj : pyLower format = "json"
    · rw [h] at hj
      exact absurd hj (by decide)
    · simp [save_results, h, hj]
  · intro hj hc
    simp [save_results, hj, hc]

/-- Witness for C5 at the formats `JSON`, `Csv` and `xml`. -/
theorem c5_save_results_formats_witness :
    save_results sampleResult "JSON" "20240101_000000"
      = .ok ("output/slack_messages_20240101_000000.json",
             .jsonFile sampleResult.to_dict)
    ∧ save_results sampleResult "Csv" "20240101_000000"
      = .ok ("output/slack_messages_20240101_000000.csv",
             .csvFile (save_as_csv sampleResult))
    ∧ save_results sampleResult "xml" "20240101_000000"
      = .error "Unsupported format: xml" :=
  ⟨(c5_save_results_formats sampleResult "JSON" "20240101_000000").1
     (by decide),
   (c5_save_results_formats sampleResult "Csv" "20240101_000000").2.1
     (by decide),
   (c5_save_results_formats sampleResult "xml" "20240101_000000").2.2
     (by decide) (by decide)⟩

/-- Claim C6: in `_parse_extraction_result` the literal string `"null"` in
either text field is mapped to `None`, the confidence value is coerced to a
float with default 0 when the key is missing, and every well-formed JSON
object reply with string text fields and a numeric confidence yields
exactly those three values. -/
theorem c6_parse_extraction_result (p n : String) (c : ℚ) :
    parse_extraction_result
        (some (.obj [("progress", .str p), ("next_steps", .str n),
                     ("confidence", .num c)]))
      = .ok (if p = "null" then none else some (.str p),
             if n = "null" then none else some (.str n), c)
    ∧ parse_extraction_result
        (some (.obj [("progress", .str p), ("next_steps", .str n)]))
      = .ok (if p = "null" then none else some (.str p),
             if n = "null" then none else some (.str n), 0) := by
  constructor <;>
    simp [parse_extraction_result, confidenceValue, pyFloatJson,
      List.lookup, pyOf, nullStrFix]

/-- Claim C7: for every batch result whose total count matches its record
sequence, the CSV output is exactly one header row in the fixed column
order followed by exactly `total_messages` data rows, one per message in
sequence order, each with one cell per column. -/
theorem c7_csv_shape (result : ProcessingResult)
    (h : result.total_messages = result.results.length) :
    (save_as_csv result).head? = some ["user_id", "username", "timestamp",
      "text", "channel_id", "thread_ts", "progress", "next_steps",
      "processed_at", "confidence_score"]
    ∧ (save_as_csv result).tail = result.results.map csvRow
    ∧ (save_as_csv result).length = 1 + result.total_messages
    ∧ ∀ m, (csvRow m).length = fieldnames.length := by
  refine ⟨rfl, rfl, ?_, ?_⟩
  · show (fieldnames :: result.results.map csvRow).length
      = 1 + result.total_messages
    simp only [List.length_cons, List.length_map, h]
    omega
  · intro m
    rfl

/-- Witness for C7 at a concrete one-message batch. -/
theorem c7_csv_shape_witness :
    (save_as_csv sampleResult).head? = some ["user_id", "username",
      "timestamp", "text", "channel_id", "thread_ts", "progress",
      "next_steps", "processed_at", "confidence_score"]
    ∧ (save_as_csv sampleResult).tail = sampleResult.results.map csvRow
    ∧ (save_as_csv sampleResult).length = 1 + sampleResult.total_messages
    ∧ (csvRow sampleMsg).length = fieldnames.length :=
  ⟨(c7_csv_shape sampleResult rfl).1, (c7_csv_shape sampleResult rfl).2.1,
   (c7_csv_shape sampleResult rfl).2.2.1,
   (c7_csv_shape sampleResult rfl).2.2.2 sampleMsg⟩

lemma convert_entry_isSome (lookup : String → Option String) (ch : String)
    (e : RawEntry) : (convert_entry lookup ch e).isSome = keeps_entry e := by
  by_cases hb : (truthy e.bot_id || truthy e.subtype) = true
  · simp [convert_entry, keeps_entry, hb]
  · by_cases hu : truthy e.user = true
    · cases he : e.user with
      | none => rw [he] at hu; simp [truthy] at hu
      | some u => rw [he] at hu; simp [convert_entry, keeps_entry, hb, hu, he]
    · simp [convert_entry, keeps_entry, hb, hu]

lemma length_get_channel_messages (lookup : String → Option String)
    (ch : String) (entries : List RawEntry) :
    (get_channel_messages lookup ch entries).length
      = entries.countP keeps_entry := by
  induction entries with
  | nil => rfl
  | cons e es ih =>
    have hs := convert_entry_isSome lookup ch e
    unfold get_channel_messages at ih ⊢
    rw [List.filterMap_cons, List.countP_cons]
    cases hc : convert_entry lookup ch e with
    | none =>
      rw [hc] at hs
      simp only [Option.isSome_none] at hs
      simp [ih, ← hs]
    | some m =>
      rw [hc] at hs
      simp only [Option.isSome_some] at hs
      simp [ih, ← hs]

/-- Claim C8: `get_channel_messages` skips exactly the bot-originated
entries, the entries with a system subtype and the entries without an
author id; every surviving entry yields exactly one record; on author-name
lookup failure the record carries the synthetic name `user_<id>`; and a
bot-only feed yields the empty message sequence. -/
theorem c8_channel_fetch_filters (lookup : String → Option String)
    (ch : String) (entries : List RawEntry) :
    (get_channel_messages lookup ch entries).length
        = entries.countP keeps_entry
    ∧ (∀ e, (convert_entry lookup ch e).isSome = keeps_entry e)
    ∧ (∀ e u m, e.user = some u → lookup u = none →
        convert_entry lookup ch e = some m → m.username = "user_" ++ u)
    ∧ ((∀ e ∈ entries, truthy e.bot_id = true) →
        get_channel_messages lookup ch entries = []) := by
  refine ⟨length_get_channel_messages lookup ch entries,
          convert_entry_isSome lookup ch, ?_, ?_⟩
  · intro e u m hu hl hc
    unfold convert_entry at hc
    by_cases hb : (truthy e.bot_id || truthy e.subtype) = true
    · rw [if_pos hb] at hc
      cases hc
    · rw [if_neg hb] at hc
      by_cases hut : truthy e.user = true
      · rw [if_pos hut] at hc
        rw [hu] at hc
        simp only [Option.some.injEq] at hc
        subst hc
        simp [username_for, hl]
      · rw [if_neg hut] at hc
        cases hc
  · intro hall
    have hz : entries.countP keeps_entry = 0 := by
      rw [List.countP_eq_zero]
      intro e he
      have hb := hall e he
      simp [keeps_entry, hb]
    have hlen := length_get_channel_messages lookup ch entries
    rw [hz] at hlen
    exact List.eq_nil_of_length_eq_zero hlen

/-- A bot-originated raw entry used to instantiate the theorems below. -/
def botEntry : RawEntry :=
  { bot_id := some "B9", user := some "U9", ts := 5, text := some "ping" }

/-- A plain user raw entry used to instantiate the theorems below. -/
def userEntry : RawEntry :=
  { user := some "U7", ts := 2, text := some "hello" }

/-- The record that `convert_entry` builds from `userEntry` when every
name lookup fails. -/
def convertedU7 : SlackMessage :=
  { user_id := "U7", username := "user_U7", timestamp := 2, text := "hello",
    channel_id := "C1" }

/-- Witness for C8: a bot-only feed yields no records, and a lookup
failure yields the synthetic name. -/
theorem c8_channel_fetch_filters_witness :
    get_channel_messages (fun _ => none) "C1" [botEntry] = []
    ∧ convertedU7.username = "user_" ++ "U7" := by
  refine ⟨(c8_channel_fetch_filters (fun _ => none) "C1" [botEntry]).2.2.2
            (by decide),
          (c8_channel_fetch_filters (fun _ => none) "C1" [userEntry]).2.2.1
            userEntry "U7" convertedU7 rfl rfl rfl⟩

/-- Claim C9: `get_user_messages u limit` is exactly the post-fetch filter
of `get_channel_messages limit` by author id, hence an order-preserving
subsequence of the channel listing containing precisely the records of
that author. -/
theorem c9_user_messages_refinement (lookup : String → Option String)
    (ch : String) (entries : List RawEntry) (u : String) :
    get_user_messages lookup ch entries u
        = (get_channel_messages lookup ch entries).filter
            (fun m => m.user_id == u)
    ∧ (get_user_messages lookup ch entries u).Sublist
        (get_channel_messages lookup ch entries)
    ∧ (∀ m ∈ get_user_messages lookup ch entries u, m.user_id = u)
    ∧ (∀ m ∈ get_channel_messages lookup ch entries,
        m.user_id = u → m ∈ get_user_messages lookup ch entries u) := by
  refine ⟨rfl, List.filter_sublist _, ?_, ?_⟩
  · intro m hm
    have h := (List.mem_filter.mp hm).2
    simpa using h
  · intro m hm hu
    exact List.mem_filter.mpr ⟨hm, by simpa using hu⟩

/-- Witness for C9 on a one-entry feed. -/
theorem c9_user_messages_refinement_witness :
    get_user_messages (fun _ => none) "C1" [userEntry] "U7"
        = (get_channel_messages (fun _ => none) "C1" [userEntry]).filter
            (fun m => m.user_id == "U7")
    ∧ (get_user_messages (fun _ => none) "C1" [userEntry] "U7").Sublist
        (get_channel_messages (fun _ => none) "C1" [userEntry])
    ∧ convertedU7.user_id = "U7" :=
  ⟨(c9_user_messages_refinement (fun _ => none) "C1" [userEntry] "U7").1,
   (c9_user_messages_refinement (fun _ => none) "C1" [userEntry] "U7").2.1,
   (c9_user_messages_refinement (fun _ => none) "C1" [userEntry] "U7").2.2.1
     convertedU7 (by exact List.Mem.head _)⟩

/-- Claim C10: `process_message` stamps `processed_at` with the processing
instant on the success path and on the failure path alike, so after
processing a batch every record carries a processing instant even when its
classification failed. -/
theorem c10_processed_at_always_set (outcome : CompletionOutcome) (now : ℚ)
    (msg : SlackMessage) (oracle : SlackMessage → CompletionOutcome)
    (msgs : List SlackMessage) :
    (process_message outcome now msg).processed_at = some now
    ∧ ∀ m ∈ process_messages oracle now msgs, m.processed_at = some now := by
  constructor
  · rfl
  · intro m hm
    obtain ⟨x, _, rfl⟩ := List.mem_map.mp hm
    rfl

/-- Witness for C10 at a failing classification of a concrete message. -/
theorem c10_processed_at_always_set_witness :
    (process_message (.content none) 7 sampleMsg).processed_at = some 7
    ∧ (process_message .apiError 7 sampleMsg).processed_at = some 7 :=
  ⟨(c10_processed_at_always_set (.content none) 7 sampleMsg
      (fun _ => .apiError) []).1,
   (c10_processed_at_always_set .apiError 7 sampleMsg (fun _ => .apiError)
      [sampleMsg]).2 (process_message .apiError 7 sampleMsg)
      (by exact List.Mem.head _)⟩
